import Mathlib

/-!
Verification model of the Empathetic Code Reviewer
(`empathetic_reviewer.py`): a CLI that classifies review comments and a
code snippet with substring heuristics, builds one large instruction
prompt, sends it to a remote completion service, and returns the
resulting text.  Pure string functions are translated directly; the
remote completion call is an explicit parameter returning
`Except String String` (`Except.error e` models a raised exception whose
`str(e)` is `e`); Python `raise` at the orchestrator boundary is
modelled by `Except.error` in the result type; the CLI is modelled over
an explicit file-system/parser environment.
-/

namespace EmpatheticReviewer

/-- Does `s` start with the pattern `pat`? (character lists). -/
def startsWithChars : List Char → List Char → Bool
  | [], _ => true
  | _ :: _, [] => false
  | a :: pat, b :: s => a == b && startsWithChars pat s

/-- Does `s` contain `pat` as a contiguous substring? (character lists).
Like Python, the empty pattern is contained in every string. -/
def hasSubChars : List Char → List Char → Bool
  | pat, [] => startsWithChars pat []
  | pat, b :: s => startsWithChars pat (b :: s) || hasSubChars pat s

/-- Python `sub in s` on strings: contiguous substring containment. -/
def pyIn (sub s : String) : Bool :=
  hasSubChars sub.toList s.toList

/-- Python `s.lower()`.  `Char.toLower` lowers only ASCII letters; every
keyword this program tests for is ASCII, so the model is faithful on the
characters the program inspects. -/
def pyLower (s : String) : String :=
  String.mk (s.toList.map Char.toLower)

/-- `harsh_indicators` from `_analyze_comment_severity`. -/
def harsh_indicators : List String :=
  ["bad", "wrong", "terrible", "awful", "stupid", "inefficient", "don\x27t"]

/-- `neutral_indicators` from `_analyze_comment_severity`. -/
def neutral_indicators : List String :=
  ["could", "might", "consider", "suggest"]

/-- `_analyze_comment_severity(comment)`: lower-case the comment, return
"harsh" if any harsh indicator occurs in it, else "neutral" if any
neutral indicator occurs, else "constructive". -/
def analyze_comment_severity (comment : String) : String :=
  let comment_lower := pyLower comment
  if harsh_indicators.any (fun indicator => pyIn indicator comment_lower) then
    "harsh"
  else if neutral_indicators.any (fun indicator => pyIn indicator comment_lower) then
    "neutral"
  else
    "constructive"

/-- `_get_language_from_code(code_snippet)`: substring checks in source
order, defaulting to "Python". -/
def get_language_from_code (code_snippet : String) : String :=
  if pyIn "def " code_snippet && pyIn ":" code_snippet then
    "Python"
  else if pyIn "function" code_snippet && pyIn "\x7b" code_snippet then
    "JavaScript"
  else if pyIn "public class" code_snippet || pyIn "private " code_snippet then
    "Java"
  else
    "Python"

/-- Reference definition of severity classification, written from the
words of the specification (for the refinement claim C2): lower-case the
comment, return "harsh" on any harsh keyword, else "neutral" on any
neutral keyword, else "constructive". -/
def severity_spec (comment : String) : String :=
  let c := pyLower comment
  if pyIn "bad" c || pyIn "wrong" c || pyIn "terrible" c || pyIn "awful" c
      || pyIn "stupid" c || pyIn "inefficient" c || pyIn "don\x27t" c then
    "harsh"
  else if pyIn "could" c || pyIn "might" c || pyIn "consider" c || pyIn "suggest" c then
    "neutral"
  else
    "constructive"

/-- Reference definition of language classification, written from the
words of the specification (for the refinement claim C3). -/
def language_spec (code : String) : String :=
  if pyIn "def " code && pyIn ":" code then "Python"
  else if pyIn "function" code && pyIn "\x7b" code then "JavaScript"
  else if pyIn "public class" code || pyIn "private " code then "Java"
  else "Python"

/-- Static prompt text preceding the interpolated language name. -/
def promptSeg1 : String :=
  "You are an exceptional senior software engineer and mentor known for your ability to provide constructive, empathetic feedback that helps developers grow. Your mission is to transform direct, potentially harsh code review comments into supportive, educational guidance.\n\n**Context:**\n- Programming Language: "

/-- Static prompt text preceding the interpolated comment count. -/
def promptSeg2 : String :=
  "\n- Number of comments to transform: "

/-- Static prompt text preceding the joined set of severity labels. -/
def promptSeg3 : String :=
  "\n- Comment severity levels detected: "

/-- Static prompt text preceding the lower-cased language of the code fence. -/
def promptSeg4 : String :=
  "\n\n**Code Under Review:**\n```"

/-- Static prompt text between the code snippet and the enumerated comments. -/
def promptSeg5 : String :=
  "\n```\n\n**Original Review Comments:**\n"

/-- Static prompt text between the enumerated comments and the second
lower-cased language interpolation (the task description). -/
def promptSeg6 : String :=
  "\n\n**Your Task:**\nTransform each comment into a well-structured analysis following this exact format for each comment:\n\n---\n### Analysis of Comment: \"[Original Comment]\"\n\n**Positive Rephrasing:** [Rewrite the feedback to be encouraging and supportive while maintaining technical accuracy. Start with something positive about the code, then gently introduce the improvement opportunity.]\n\n**The \x27Why\x27:** [Explain the underlying software engineering principle, performance consideration, or best practice. Make it educational and help the developer understand the deeper reasoning.]\n\n**Suggested Improvement:**\n```"

/-- Static tail of the prompt (tone-adaptation rules, overall-assessment
instructions, quality standards).  The neutral-comments bullet carries two
trailing spaces, exactly as in the source file. -/
def promptSeg7 : String :=
  "\n[Provide a concrete, working code example that demonstrates the recommended fix. Ensure the code is syntactically correct and represents a meaningful improvement.]\n```\n\n**Learn More:** [Provide a relevant link to official documentation, style guides, or authoritative resources that support this recommendation.]\n\n---\n\n**Instructions for tone adaptation:**\n- For harsh comments: Be extra gentle and encouraging, acknowledge what\x27s working first\n- For neutral comments: Maintain supportive tone while being direct about improvements\x20\x20\n- For constructive comments: Enhance the existing positive tone with more detail\n\n**After analyzing all comments, add:**\n\n## Overall Assessment\n\n[Provide a holistic, encouraging summary that:\n1. Acknowledges the developer\x27s effort and what they did well\n2. Frames the suggestions as growth opportunities\n3. Encourages continued learning and improvement\n4. Maintains an optimistic, supportive tone]\n\n**Quality Standards:**\n- Be specific and actionable, not generic\n- Ensure all code examples are syntactically correct and runnable\n- Provide genuine technical insights, not just politeness\n- Make explanations clear for developers at different skill levels\n- Include relevant links to authoritative sources when possible"

/-- The comment enumeration
`chr(10).join(f"{i+1}. {comment}" for i, comment in enumerate(comments))`:
comments numbered from 1, one per line. -/
def enumerate_comments (comments : List String) : String :=
  String.intercalate "\n" (comments.enum.map (fun p => toString (p.1 + 1) ++ ". " ++ p.2))

/-- `_create_empathetic_prompt(code_snippet, comments)`, parameterised by
the iteration order of the CPython expression `set(severity_analysis)`.
CPython seeds string hashing per process (PYTHONHASHSEED), so across runs
the only guarantee is that iteration yields each distinct severity label
exactly once — some permutation of `List.dedup` of the label list; within
one run the order is a fixed function of the list.  `setOrder` is that
hidden input. -/
def create_empathetic_prompt_ord (setOrder : List String → List String)
    (code_snippet : String) (comments : List String) : String :=
  let language := get_language_from_code code_snippet
  let severity_analysis := comments.map analyze_comment_severity
  promptSeg1 ++ language
    ++ promptSeg2 ++ toString comments.length
    ++ promptSeg3 ++ String.intercalate ", " (setOrder severity_analysis)
    ++ promptSeg4 ++ pyLower language ++ "\n" ++ code_snippet ++ promptSeg5
    ++ enumerate_comments comments
    ++ promptSeg6 ++ pyLower language ++ promptSeg7

/-- One concrete admissible set-iteration order (first occurrences kept),
standing for the order of a fixed interpreter run. -/
def pySetOrder : List String → List String :=
  fun l => l.dedup

/-- `_create_empathetic_prompt` under the fixed interpreter run modelled
by `pySetOrder`. -/
def create_empathetic_prompt : String → List String → String :=
  create_empathetic_prompt_ord pySetOrder

/-- The remote completion exchange of `review_code` (the
`chat.completions.create` call plus the `choices[0].message.content`
extraction), abstracted as a function from the prompt to either the
extracted text or a raised exception: `Except.error e` models any raised
exception whose `str(e)` is `e`. -/
def CompletionClient : Type :=
  String → Except String String

/-- `review_code(code_snippet, review_comments)`: build the prompt, call
the completion client, return its text; the `try`/`except Exception`
wrapping the whole body converts any raised exception `e` into the
returned string `"Error generating empathetic review: " ++ str(e)`, so
the function always returns a string.  (A fixed interpreter run is
modelled via `create_empathetic_prompt`, i.e. `pySetOrder`.) -/
def review_code (client : CompletionClient)
    (code_snippet : String) (review_comments : List String) : String :=
  match client (create_empathetic_prompt code_snippet review_comments) with
  | Except.ok content => content
  | Except.error e => "Error generating empathetic review: " ++ e

/-- JSON values as far as this program distinguishes them (top-level
documents are handled separately as objects). -/
inductive JsonValue where
  | str : String → JsonValue
  | num : Int → JsonValue
  | boolean : Bool → JsonValue
  | null : JsonValue
  | arr : List JsonValue → JsonValue

/-- A parsed JSON object (a Python dict): association list of key/value
pairs; `json.load` yields unique keys, and lookup takes the first match. -/
def JsonObj : Type :=
  List (String × JsonValue)

/-- Dict lookup `json_data[k]` as an option. -/
def jsonLookup (j : JsonObj) (k : String) : Option JsonValue :=
  (j.find? (fun p => p.1 == k)).map (fun p => p.2)

/-- Python `k in json_data` on a dict: key membership. -/
def jsonHasKey (j : JsonObj) (k : String) : Bool :=
  (jsonLookup j k).isSome

/-- Decode a JSON array whose elements are all strings. -/
def allStrings : List JsonValue → Option (List String)
  | [] => some []
  | JsonValue.str s :: rest => (allStrings rest).map (fun l => s :: l)
  | _ :: _ => none

/-- Message of the dynamic-typing exceptions (TypeError/AttributeError)
raised inside the `try` block of `review_code` when the JSON values bound
to `code_snippet`/`review_comments` do not have the expected shapes.  In
Python the text depends on the offending value; no property stated here
inspects it, so it is modelled by one fixed text. -/
def dynTypeErrorText : String :=
  "argument of type \x27int\x27 is not iterable"

/-- `review_code` as invoked by `process_json_input` on dynamically typed
JSON values.  A string snippet with a list of string comments is the
ordinary case; a string snippet with a *string* of comments iterates its
characters (Python string iteration), which also succeeds; every other
shape raises inside the `try` block (e.g. TypeError from the substring
tests or AttributeError from `comment.lower()`), which the catch-all
turns into the in-band error string.  The model folds those exception
texts into `dynTypeErrorText`; no claim depends on that text, only on the
fact that `review_code` returns in-band. -/
def review_code_dyn (client : CompletionClient)
    (code comments : JsonValue) : String :=
  match code, comments with
  | JsonValue.str c, JsonValue.arr items =>
      match allStrings items with
      | some strs => review_code client c strs
      | none => "Error generating empathetic review: " ++ dynTypeErrorText
  | JsonValue.str c, JsonValue.str s =>
      review_code client c (s.toList.map (fun ch => String.mk [ch]))
  | _, _ => "Error generating empathetic review: " ++ dynTypeErrorText

/-- The ValueError message raised by `process_json_input` on a missing
required key. -/
def validationErrorText : String :=
  "JSON must contain \x27code_snippet\x27 and \x27review_comments\x27 keys"

/-- `process_json_input(json_data)`, parameterised by the review function
applied to the two extracted values (instantiated with
`review_code_dyn client`).  `Except.error` models the raised ValueError
propagating to the caller; `Except.ok` models a normal return. -/
def process_json_input (review : JsonValue → JsonValue → String)
    (json_data : JsonObj) : Except String String :=
  if !jsonHasKey json_data "code_snippet" || !jsonHasKey json_data "review_comments" then
    Except.error validationErrorText
  else
    Except.ok (review ((jsonLookup json_data "code_snippet").getD JsonValue.null)
      ((jsonLookup json_data "review_comments").getD JsonValue.null))

/-- Observable outcome of one CLI run: exit code and the lines written to
standard output and standard error. -/
structure CliOutcome where
  exitCode : Nat
  stdoutLines : List String
  stderrLines : List String
deriving DecidableEq

/-- `main()`, over an explicit environment: `fs` maps a path to its
contents (`none` models FileNotFoundError on `open`), `parse` models
`json.load` (`none` models JSONDecodeError; top-level non-object JSON
documents are out of scope of every stated property and not modelled),
`ctor` models constructing `EmpathethicCodeReviewer()` (`Except.error`
is a raised exception message), `writeOk path` tells whether writing the
output file succeeds, and `args` are the input path and optional output
path.  The `try` block mirrors the source: read, parse, construct,
process, then write or print; `except FileNotFoundError` and
`except json.JSONDecodeError` print their specific messages, the final
`except Exception` prints `"Error: " ++ str(e)`; all three exit with
code 1. -/
def main_model (fs : String → Option String) (parse : String → Option JsonObj)
    (ctor : Except String CompletionClient) (writeOk : String → Bool)
    (input_file : String) (output : Option String) : CliOutcome :=
  match fs input_file with
  | none =>
      ⟨1, [], ["Error: Input file \x27" ++ input_file ++ "\x27 not found"]⟩
  | some contents =>
      match parse contents with
      | none =>
          ⟨1, [], ["Error: Invalid JSON in \x27" ++ input_file ++ "\x27"]⟩
      | some json_data =>
          match ctor with
          | Except.error e => ⟨1, [], ["Error: " ++ e]⟩
          | Except.ok client =>
              match process_json_input (review_code_dyn client) json_data with
              | Except.error e => ⟨1, [], ["Error: " ++ e]⟩
              | Except.ok result =>
                  match output with
                  | some path =>
                      if writeOk path then
                        ⟨0, ["Empathetic review written to " ++ path], []⟩
                      else
                        ⟨1, [], ["Error: could not write output file"]⟩
                  | none => ⟨0, [result], []⟩

/-- Stubbed completion client that always returns the fixed text "OK". -/
def okClient : CompletionClient :=
  fun _ => Except.ok "OK"

/-- Stubbed completion client that always raises (models a transport or
authentication failure whose `str(e)` is "connection error"). -/
def failClient : CompletionClient :=
  fun _ => Except.error "connection error"

/-- C2: severity classification agrees with the reference definition from
the specification; any comment containing a harsh keyword (after
lower-casing) is classified "harsh" even when a neutral keyword also
occurs, and any comment containing no indicator keyword is classified
"constructive". -/
theorem severity_matches_reference (comment : String) :
    analyze_comment_severity comment = severity_spec comment
    ∧ (harsh_indicators.any (fun k => pyIn k (pyLower comment)) = true →
        analyze_comment_severity comment = "harsh")
    ∧ (harsh_indicators.any (fun k => pyIn k (pyLower comment)) = false →
        neutral_indicators.any (fun k => pyIn k (pyLower comment)) = false →
        analyze_comment_severity comment = "constructive") := by
  refine ⟨?_, ?_, ?_⟩
  · simp only [analyze_comment_severity, severity_spec, harsh_indicators,
      neutral_indicators, List.any_cons, List.any_nil, Bool.or_false, Bool.or_assoc]
  · intro h
    simp [analyze_comment_severity, h]
  · intro hh hn
    simp [analyze_comment_severity, hh, hn]

/-- C2 witness: the comment "This could be bad" contains both the harsh
keyword "bad" and the neutral keyword "could" and is classified "harsh". -/
theorem severity_matches_reference_witness :
    analyze_comment_severity "This could be bad" = "harsh" :=
  (severity_matches_reference "This could be bad").2.1 (by decide)

/-- C3: language classification agrees with the reference definition from
the specification, tested in the source check order with default
"Python". -/
theorem language_matches_reference (code : String) :
    get_language_from_code code = language_spec code := by
  rfl

/-- C10: both classifiers are total and their outputs are confined to the
enumerated label sets: severity is one of "harsh"/"neutral"/"constructive"
and language is one of "Python"/"JavaScript"/"Java", for every input
string. -/
theorem classifiers_total_enumerated (comment code : String) :
    (analyze_comment_severity comment = "harsh"
      ∨ analyze_comment_severity comment = "neutral"
      ∨ analyze_comment_severity comment = "constructive")
    ∧ (get_language_from_code code = "Python"
      ∨ get_language_from_code code = "JavaScript"
      ∨ get_language_from_code code = "Java") := by
  constructor
  · simp only [analyze_comment_severity]
    split
    · exact Or.inl rfl
    · split
      · exact Or.inr (Or.inl rfl)
      · exact Or.inr (Or.inr rfl)
  · simp only [get_language_from_code]
    split
    · exact Or.inl rfl
    · split
      · exact Or.inr (Or.inl rfl)
      · split
        · exact Or.inr (Or.inr rfl)
        · exact Or.inl rfl

/-- Another admissible set-iteration order (distinct elements in reverse),
standing for a different interpreter run (different PYTHONHASHSEED). -/
def revSetOrder : List String → List String :=
  fun l => l.dedup.reverse

/-- C6 amended: prompt building is deterministic apart from the iteration
order of `set(severity_analysis)` (a hidden input that varies with the
interpreter hash seed): any two invocations with identical code snippet
and comments whose set iteration yields the same label sequence produce
byte-identical prompt text. -/
theorem prompt_deterministic_given_set_order (o1 o2 : List String → List String)
    (code_snippet : String) (comments : List String)
    (h : o1 (comments.map analyze_comment_severity)
        = o2 (comments.map analyze_comment_severity)) :
    create_empathetic_prompt_ord o1 code_snippet comments
      = create_empathetic_prompt_ord o2 code_snippet comments := by
  simp only [create_empathetic_prompt_ord, h]

/-- C6 amended witness: a concrete pair of invocations with equal set
iteration (here, the same fixed run) produce equal prompts. -/
theorem prompt_deterministic_given_set_order_witness :
    create_empathetic_prompt_ord pySetOrder "x = 1" ["This is bad code"]
      = create_empathetic_prompt_ord pySetOrder "x = 1" ["This is bad code"] :=
  prompt_deterministic_given_set_order pySetOrder pySetOrder "x = 1" ["This is bad code"] rfl

set_option maxRecDepth 40000 in
/-- C6 counterexample: for comments ["bad", "could"] the severity labels
are ["harsh", "neutral"]; `pySetOrder` and `revSetOrder` are both
admissible iterations of that two-element set (each a permutation of the
distinct labels), yet they yield different prompt bytes on identical
inputs — the "Comment severity levels detected" line reads
"harsh, neutral" in one and "neutral, harsh" in the other.  Two
invocations in interpreter runs with different hash seeds therefore need
not be byte-identical. -/
theorem prompt_set_order_counterexample :
    List.Perm (pySetOrder (["bad", "could"].map analyze_comment_severity))
      (List.dedup (["bad", "could"].map analyze_comment_severity))
    ∧ List.Perm (revSetOrder (["bad", "could"].map analyze_comment_severity))
      (List.dedup (["bad", "could"].map analyze_comment_severity))
    ∧ create_empathetic_prompt_ord pySetOrder "total = 0" ["bad", "could"]
      ≠ create_empathetic_prompt_ord revSetOrder "total = 0" ["bad", "could"] := by
  refine ⟨by decide, by decide, by decide⟩

set_option maxRecDepth 40000 in
/-- C8: on the end-to-end example input, language detection yields
"Python", the single comment is classified "harsh", the built prompt
contains the literal substrings "Python", "harsh" and the original
comment text, and with the stubbed completion client returning "OK" both
`review_code` and `process_json_input` return exactly "OK". -/
theorem end_to_end_example :
    get_language_from_code "def f(): pass" = "Python"
    ∧ analyze_comment_severity "This is bad code" = "harsh"
    ∧ pyIn "Python" (create_empathetic_prompt "def f(): pass" ["This is bad code"]) = true
    ∧ pyIn "harsh" (create_empathetic_prompt "def f(): pass" ["This is bad code"]) = true
    ∧ pyIn "This is bad code"
        (create_empathetic_prompt "def f(): pass" ["This is bad code"]) = true
    ∧ review_code okClient "def f(): pass" ["This is bad code"] = "OK"
    ∧ process_json_input (review_code_dyn okClient)
        [("code_snippet", JsonValue.str "def f(): pass"),
         ("review_comments", JsonValue.arr [JsonValue.str "This is bad code"])]
      = Except.ok "OK" := by
  refine ⟨by decide, by decide, by decide, by decide, by decide, rfl, rfl⟩

/-- The character list of a concatenation is the concatenation of the
character lists. -/
theorem toList_of_append (a b : String) : (a ++ b).toList = a.toList ++ b.toList := by
  cases a
  cases b
  rfl

/-- A character list starts with any of its own initial segments. -/
theorem startsWithChars_self_append (p s : List Char) :
    startsWithChars p (p ++ s) = true := by
  induction p with
  | nil => rfl
  | cons a t ih => simp [startsWithChars, ih]

/-- C4: whenever the completion exchange raises, `review_code` returns
the raised message prefixed by "Error generating empathetic review: " —
in particular a string starting with that prefix — and, being a total
function into strings, never propagates the exception to its caller. -/
theorem review_code_error_in_band (client : CompletionClient)
    (code_snippet : String) (review_comments : List String) (e : String)
    (h : client (create_empathetic_prompt code_snippet review_comments) = Except.error e) :
    review_code client code_snippet review_comments
      = "Error generating empathetic review: " ++ e
    ∧ startsWithChars ("Error generating empathetic review: ").toList
        (review_code client code_snippet review_comments).toList = true := by
  have heq : review_code client code_snippet review_comments
      = "Error generating empathetic review: " ++ e := by
    unfold review_code
    rw [h]
  refine ⟨heq, ?_⟩
  rw [heq, toList_of_append]
  exact startsWithChars_self_append _ _

/-- C4 witness: the always-raising stubbed client makes `review_code`
return the in-band error string. -/
theorem review_code_error_in_band_witness :
    review_code failClient "x = 1" ["Consider a docstring"]
      = "Error generating empathetic review: " ++ "connection error"
    ∧ startsWithChars ("Error generating empathetic review: ").toList
        (review_code failClient "x = 1" ["Consider a docstring"]).toList = true :=
  review_code_error_in_band failClient "x = 1" ["Consider a docstring"] "connection error" rfl

/-- C1 counterexample: on the empty JSON object (both required keys
missing) `process_json_input` raises ValueError — modelled by
`Except.error` propagating to the caller — instead of returning an
in-band error string as the claim asserts. -/
theorem process_json_input_missing_keys_raise :
    process_json_input (review_code_dyn okClient) ([] : JsonObj)
      = Except.error validationErrorText
    ∧ (process_json_input (review_code_dyn okClient) ([] : JsonObj)).isOk = false :=
  ⟨rfl, rfl⟩

/-- C1 amended: an exception escapes `process_json_input` exactly when a
required key is missing (the validation ValueError); whenever both keys
are present, the catch-all inside `review_code` converts every completion
failure into an in-band string and the call returns normally, for every
completion client. -/
theorem process_json_input_exception_policy (client : CompletionClient)
    (json_data : JsonObj) :
    (process_json_input (review_code_dyn client) json_data).isOk
      = (jsonHasKey json_data "code_snippet" && jsonHasKey json_data "review_comments") := by
  unfold process_json_input
  cases hc : jsonHasKey json_data "code_snippet" <;>
    cases hr : jsonHasKey json_data "review_comments" <;> simp [hc, hr, Except.isOk, Except.toBool]

/-- C5: if either required key is absent, `process_json_input` raises the
ValueError with the "JSON must contain ..." message — and this result is
the same for *every* review function, so neither the prompt builder nor
the completion client is consulted; if both keys are present, validation
does not fail and the call returns normally. -/
theorem process_json_input_validation_behavior (review : JsonValue → JsonValue → String)
    (json_data : JsonObj) :
    ((jsonHasKey json_data "code_snippet" = false
        ∨ jsonHasKey json_data "review_comments" = false) →
      process_json_input review json_data = Except.error validationErrorText)
    ∧ (jsonHasKey json_data "code_snippet" = true →
        jsonHasKey json_data "review_comments" = true →
        (process_json_input review json_data).isOk = true) := by
  constructor
  · intro h
    unfold process_json_input
    rcases h with h | h <;> simp [h]
  · intro hc hr
    simp [process_json_input, hc, hr, Except.isOk, Except.toBool]

/-- C5 witness: an object with only `review_comments` makes
`process_json_input` raise the ValueError. -/
theorem process_json_input_validation_behavior_witness :
    process_json_input (review_code_dyn okClient) [("review_comments", JsonValue.arr [])]
      = Except.error validationErrorText :=
  (process_json_input_validation_behavior (review_code_dyn okClient)
    [("review_comments", JsonValue.arr [])]).1 (Or.inl rfl)

/-- C7: two request objects that both contain the required keys and agree
on their values give the same `process_json_input` result, whatever extra
keys either carries — the result depends only on the two looked-up
values. -/
theorem process_json_input_ignores_extra_keys (client : CompletionClient)
    (j1 j2 : JsonObj)
    (_hsc : (jsonLookup j1 "code_snippet").isSome = true)
    (_hsr : (jsonLookup j1 "review_comments").isSome = true)
    (hc : jsonLookup j1 "code_snippet" = jsonLookup j2 "code_snippet")
    (hr : jsonLookup j1 "review_comments" = jsonLookup j2 "review_comments") :
    process_json_input (review_code_dyn client) j1
      = process_json_input (review_code_dyn client) j2 := by
  unfold process_json_input jsonHasKey
  rw [hc, hr]

/-- C7 witness: an extra key and a different key order do not change the
result. -/
theorem process_json_input_ignores_extra_keys_witness :
    process_json_input (review_code_dyn okClient)
        [("code_snippet", JsonValue.str "x = 1"),
         ("review_comments", JsonValue.arr []),
         ("extra", JsonValue.num 5)]
      = process_json_input (review_code_dyn okClient)
        [("review_comments", JsonValue.arr []),
         ("code_snippet", JsonValue.str "x = 1")] :=
  process_json_input_ignores_extra_keys okClient
    [("code_snippet", JsonValue.str "x = 1"),
     ("review_comments", JsonValue.arr []),
     ("extra", JsonValue.num 5)]
    [("review_comments", JsonValue.arr []),
     ("code_snippet", JsonValue.str "x = 1")]
    rfl rfl rfl rfl

/-- C9: a missing input file yields exit code 1 with
"Error: Input file '<path>' not found" on standard error, and an input
file that is not valid JSON yields exit code 1 with
"Error: Invalid JSON in '<path>'" on standard error, for every
environment, client constructor and output option. -/
theorem cli_error_reporting (fs : String → Option String)
    (parse : String → Option JsonObj) (ctor : Except String CompletionClient)
    (writeOk : String → Bool) (input_file : String) (output : Option String) :
    (fs input_file = none →
        main_model fs parse ctor writeOk input_file output
          = ⟨1, [], ["Error: Input file \x27" ++ input_file ++ "\x27 not found"]⟩)
    ∧ (∀ contents, fs input_file = some contents → parse contents = none →
        main_model fs parse ctor writeOk input_file output
          = ⟨1, [], ["Error: Invalid JSON in \x27" ++ input_file ++ "\x27"]⟩) := by
  constructor
  · intro h
    unfold main_model
    rw [h]
  · intro contents h1 h2
    unfold main_model
    rw [h1]
    simp only [h2]

/-- C9 witness: with an empty file system the CLI reports the missing
input file on standard error and exits with code 1. -/
theorem cli_error_reporting_witness :
    main_model (fun _ => none) (fun _ => none) (Except.ok okClient)
        (fun _ => true) "input.json" none
      = ⟨1, [], ["Error: Input file \x27input.json\x27 not found"]⟩ :=
  (cli_error_reporting (fun _ => none) (fun _ => none) (Except.ok okClient)
    (fun _ => true) "input.json" none).1 rfl

end EmpatheticReviewer
